import Mathlib

/-!
Verification of the spatial visualization engine of the `awpy` plotting
module (`awpy/plot/plot.py`, `awpy/data/map_data.py`) against its
natural-language specification.

Coordinates, scales and alphas are modelled as rationals (`ℚ`): the Python
code uses IEEE floats, but every arithmetic step the claims exercise
(subtraction, division by a nonzero scale, comparison, linear rescaling)
is exact at the inputs considered, so the rational model is faithful.
A float `NaN` placeholder (as produced by `np.nan` assignments) is
modelled as `Option ℚ` with `none` playing the role of NaN; the
NaN-propagation of `ndarray.max` and of division is modelled explicitly.
-/

/-- Whether a map has a lower level: `lower_level_max` in `map_data.py` is
either a finite float or `float("-inf")` (no lower level). -/
inductive LowerMax where
  | negInf : LowerMax
  | finite (t : ℚ) : LowerMax
deriving DecidableEq, Repr

/-- One record of `MAP_DATA` in `awpy/data/map_data.py`: upper-left world
coordinate (`pos_x`, `pos_y`), world-units-per-pixel `scale`, optional
`rotate` and `zoom`, and the lower-level z cutoff `lower_level_max`. -/
structure MapData where
  pos_x : ℚ
  pos_y : ℚ
  scale : ℚ
  rotate : Option ℤ
  zoom : Option ℚ
  lower_level_max : LowerMax
deriving DecidableEq, Repr

/-- The `MAP_DATA` dictionary of `awpy/data/map_data.py`, entry for entry.
`None` values of `rotate`/`zoom` become `none`; float literals become the
equal rationals. An unknown key returns `none` (a Python `KeyError`). -/
def MAP_DATA : String → Option MapData
  | "ar_baggage" => some ⟨-1316, 1288, 2539062/1000000, some 1, some (13/10), .finite (-5)⟩
  | "ar_shoots" => some ⟨-1368, 1952, 26875/10000, none, none, .negInf⟩
  | "cs_office" => some ⟨-1838, 1858, 41/10, none, none, .negInf⟩
  | "cs_italy" => some ⟨-2647, 2592, 46/10, some 1, some (15/10), .negInf⟩
  | "de_ancient" => some ⟨-2953, 2164, 5, some 0, some 0, .negInf⟩
  | "de_anubis" => some ⟨-2796, 3328, 522/100, none, none, .negInf⟩
  | "de_dust" => some ⟨-2850, 4073, 6, some 1, some (13/10), .negInf⟩
  | "de_dust2" => some ⟨-2476, 3239, 44/10, some 1, some (11/10), .negInf⟩
  | "de_inferno" => some ⟨-2087, 3870, 49/10, none, none, .negInf⟩
  | "de_inferno_s2" => some ⟨-2087, 3870, 49/10, none, none, .negInf⟩
  | "de_mirage" => some ⟨-3230, 1713, 5, some 0, some 0, .negInf⟩
  | "de_nuke" => some ⟨-3453, 2887, 7, none, none, .finite (-495)⟩
  | "de_overpass" => some ⟨-4831, 1781, 52/10, some 0, some 0, .negInf⟩
  | "de_vertigo" => some ⟨-3168, 1762, 4, none, none, .finite 11700⟩
  | _ => none

/-- The two projection axes accepted by `position_transform_axis`. -/
inductive Axis where
  | x : Axis
  | y : Axis
deriving DecidableEq, Repr

/-- Modelled from the spec: `awpy/plot/utils.py` is not in the source tree
(only its callers in `awpy/plot/plot.py` are), so `position_transform_axis`
is taken from spec section 4.1: for a registered map,
`pixel = (world_value - origin[axis]) / scale`, with the y-axis sign
convention inverted relative to x; an unregistered map id fails
(`ConfigError`), modelled as `none`. -/
def position_transform_axis (map_name : String) (v : ℚ) (axis : Axis) : Option ℚ :=
  (MAP_DATA map_name).map fun md =>
    match axis with
    | .x => (v - md.pos_x) / md.scale
    | .y => (md.pos_y - v) / md.scale

/-- Lower-level test against one map record: `z < lower_level_max`, which
is false for every `z` when the cutoff is `-inf`. -/
def isLowerOfMap (md : MapData) (z : ℚ) : Bool :=
  match md.lower_level_max with
  | .negInf => false
  | .finite t => decide (z < t)

/-- Modelled from the spec: `awpy/plot/utils.py` is not in the source tree
(only its callers in `awpy/plot/plot.py` are), so `is_position_on_lower_level`
is taken from spec section 4.2: `point.z < lower_level_z_threshold[map_id]`,
always false when the threshold is negative infinity. The claims only
exercise registered maps; an unregistered map id is mapped to `false`. -/
def is_position_on_lower_level (map_name : String) (p : ℚ × ℚ × ℚ) : Bool :=
  match MAP_DATA map_name with
  | none => false
  | some md => isLowerOfMap md p.2.2

/-- Errors the plotting code can raise: `ValueError` on a point/settings
count mismatch, Python `TypeError` (e.g. `None > 0` or `None * x`), and
`IndexError` (`frames[0]` on an empty list). -/
inductive PErr where
  | validationError : PErr
  | typeError : PErr
  | indexError : PErr
deriving DecidableEq, Repr

/-- Drawing actions of `plot` in `awpy/plot/plot.py`, each recording the
alpha it is performed with. The order of a trace is the order in which the
matplotlib calls execute. -/
inductive PEvent where
  | drawBaseMap : PEvent
  | markerOutline (alpha : ℚ) : PEvent
  | markerInner (alpha : ℚ) : PEvent
  | hpBarBg (alpha : ℚ) : PEvent
  | hpBarFg (alpha : ℚ) : PEvent
  | armorBarBg (alpha : ℚ) : PEvent
  | armorBarFg (alpha : ℚ) : PEvent
  | directionSegment (alpha : ℚ) : PEvent
  | textLabel (alpha : ℚ) : PEvent
deriving DecidableEq, Repr

/-- One `point_settings` dictionary of `plot`: every key optional, `none`
meaning the key is absent (`settings.get(...)` returns `None`; `marker`,
`color` and `size` then fall back to their defaults `"o"`, `"red"`, `10`). -/
structure Ann where
  marker : Option String := none
  color : Option String := none
  size : Option ℚ := none
  hp : Option ℤ := none
  armor : Option ℤ := none
  direction : Option (ℚ × ℚ) := none
  label : Option String := none
deriving DecidableEq, Repr

instance : Inhabited Ann := ⟨{}⟩

/-- The alpha resolution of `plot` (plot.py lines 93-100):
`alpha = 0.15 if hp == 0 else 1.0`, then `*= 0.4` for a lower-level point
on the upper view, and `= 0` for an upper-level point on the lower view.
Python `hp == 0` is false when `hp` is `None`. -/
def resolveAlpha (hp : Option ℤ) (lower isLowerView : Bool) : ℚ :=
  let a : ℚ := if hp = some 0 then 15/100 else 1
  if lower then
    if !isLowerView then a * (4/10) else a
  else
    if isLowerView then 0 else a

/-- Python truthiness test `hp and hp > 0` (plot.py line 130): `None` and
`0` are falsy; otherwise `hp > 0` decides. -/
def hpTruthy (hp : Option ℤ) : Bool :=
  match hp with
  | none => false
  | some h => if h = 0 then false else decide (0 < h)

/-- The direction block of `plot` (plot.py lines 186-198):
`if direction and hp > 0`. A `None` direction short-circuits; otherwise
Python evaluates `hp > 0`, which raises `TypeError` when `hp` is `None`. -/
def directionEvents (alpha : ℚ) (direction : Option (ℚ × ℚ)) (hp : Option ℤ) :
    List PEvent × Option PErr :=
  match direction with
  | none => ([], none)
  | some _ =>
    match hp with
    | none => ([], some .typeError)
    | some h => (if 0 < h then [.directionSegment alpha] else [], none)

/-- The label block of `plot` (plot.py lines 201-214): `if label:` — absent
or empty labels are falsy. -/
def labelEvents (alpha : ℚ) (label : Option String) : List PEvent :=
  match label with
  | none => []
  | some l => if l = "" then [] else [.textLabel alpha]

/-- The bar/direction/label part of one iteration of the point loop of
`plot` (plot.py lines 125-214). Inside the `hp and hp > 0` block the code
draws the HP background, HP foreground and armor background bars, then
builds the armor foreground with width `bar_length * armor / 100`, which
raises `TypeError` when `armor` is `None` (plot.py line 176). -/
def renderPointBody (alpha : ℚ) (s : Ann) : List PEvent × Option PErr :=
  let bars : List PEvent × Option PErr :=
    if hpTruthy s.hp then
      match s.armor with
      | some _ => ([.hpBarBg alpha, .hpBarFg alpha, .armorBarBg alpha, .armorBarFg alpha], none)
      | none => ([.hpBarBg alpha, .hpBarFg alpha, .armorBarBg alpha], some .typeError)
    else ([], none)
  match bars with
  | (ev, some e) => (ev, some e)
  | (ev, none) =>
    match directionEvents alpha s.direction s.hp with
    | (ev2, some e) => (ev ++ ev2, some e)
    | (ev2, none) => (ev ++ ev2 ++ labelEvents alpha s.label, none)

/-- One iteration of the point loop of `plot` (plot.py lines 83-214):
resolve the alpha, draw the two concentric markers with it (lines 106-123),
then bars, direction segment and label. -/
def renderPoint (map_name : String) (isLowerView : Bool) (p : ℚ × ℚ × ℚ) (s : Ann) :
    List PEvent × Option PErr :=
  let lower := is_position_on_lower_level map_name p
  let alpha := resolveAlpha s.hp lower isLowerView
  let body := renderPointBody alpha s
  (.markerOutline alpha :: .markerInner alpha :: body.1, body.2)

/-- The point loop of `plot` over `zip(points, point_settings)`, stopping
at the first raised exception (Python aborts the loop there). -/
def renderLoop (map_name : String) (isLowerView : Bool) :
    List ((ℚ × ℚ × ℚ) × Ann) → List PEvent × Option PErr
  | [] => ([], none)
  | (p, s) :: rest =>
    match renderPoint map_name isLowerView p s with
    | (ev, some e) => (ev, some e)
    | (ev, none) =>
      let r := renderLoop map_name isLowerView rest
      (ev ++ r.1, r.2)

/-- The `plot` function of `awpy/plot/plot.py` as a trace of drawing
events plus an optional raised error: the base map is drawn first (lines
63-71); then, when points are given, missing `point_settings` default to
one empty dict per point, a length mismatch raises `ValueError` (lines
76-80) before any point is drawn, and otherwise the point loop runs. -/
def plotRun (map_name : String) (points : Option (List (ℚ × ℚ × ℚ)))
    (point_settings : Option (List Ann)) (isLowerView : Bool) :
    List PEvent × Option PErr :=
  match points with
  | none => ([.drawBaseMap], none)
  | some ps =>
    match point_settings with
    | none =>
      let r := renderLoop map_name isLowerView (ps.zip (List.replicate ps.length default))
      (.drawBaseMap :: r.1, r.2)
    | some ss =>
      if ps.length ≠ ss.length then ([.drawBaseMap], some .validationError)
      else
        let r := renderLoop map_name isLowerView (ps.zip ss)
        (.drawBaseMap :: r.1, r.2)

/-- NaN-propagating binary max, as `np.maximum`-style reduction inside
`ndarray.max`: any NaN operand makes the result NaN. -/
def nmax (a b : Option ℚ) : Option ℚ :=
  match a, b with
  | some x, some y => some (max x y)
  | _, _ => none

/-- `ndarray.max()` over a NaN-carrying array: the reduction propagates
NaN, so the result is NaN as soon as one entry is NaN; numpy raises on an
empty array, modelled as `none`. -/
def nanMax : List (Option ℚ) → Option ℚ
  | [] => none
  | x :: xs => xs.foldl nmax x

/-- Float division where a NaN operand yields NaN. -/
def nanDiv (a b : Option ℚ) : Option ℚ :=
  match a, b with
  | some x, some y => some (x / y)
  | _, _ => none

/-- `ndarray.max()` over a NaN-free array (numpy raises on an empty array;
`0` is returned here for the empty case, which no claim exercises). -/
def listMax : List ℚ → ℚ
  | [] => 0
  | x :: xs => xs.foldl max x

/-- The assignment `arr[arr == 0] = np.nan` (plot.py lines 398 and 406). -/
def setZerosNaN (counts : List ℚ) : List (Option ℚ) :=
  counts.map fun c => if c = 0 then none else some c

/-- The shared alpha layer of the `hist` and `kde` branches (plot.py lines
408-417 and 441-450): normalize the NaN-carrying cell array by its
`ndarray.max()`, then set the color alpha channel to `0` where the
normalized value is NaN and to `norm * (max_alpha - min_alpha) + min_alpha`
elsewhere. -/
def nanAlphas (cells : List (Option ℚ)) (minAlpha maxAlpha : ℚ) : List ℚ :=
  let m := nanMax cells
  cells.map fun c =>
    match nanDiv c m with
    | none => 0
    | some v => v * (maxAlpha - minAlpha) + minAlpha

/-- The `hex` branch of `heatmap` (plot.py lines 383-399), per hexbin cell,
parameterized by the cell counts `ax.hexbin(...).get_array()` produces:
with `vary_alpha` the alphas are `counts / counts.max()` rescaled into
`[min_alpha, max_alpha]` (lines 390-395, before any NaN is introduced),
otherwise the constant `alpha` argument; afterwards zero counts are set to
NaN (line 398), which matplotlib renders fully transparent. Each cell is
returned as `(value after NaN masking, alpha)`. -/
def hexCellStates (counts : List ℚ) (varyAlpha : Bool) (baseAlpha minAlpha maxAlpha : ℚ) :
    List (Option ℚ × ℚ) :=
  let m := listMax counts
  counts.map fun c =>
    (if c = 0 then none else some c,
     if varyAlpha then c / m * (maxAlpha - minAlpha) + minAlpha else baseAlpha)

/-- The `vary_alpha` alpha channel of the `hist` branch (plot.py lines
401-421), parameterized by the bin counts `np.histogram2d` produces: zero
bins become NaN first (line 406), then the counts are normalized by
`hist.max()` — which is NaN as soon as one bin is empty — and rescaled. -/
def histAlphas (counts : List ℚ) (minAlpha maxAlpha : ℚ) : List ℚ :=
  nanAlphas (setZerosNaN counts) minAlpha maxAlpha

/-- The suppression step of the `kde` branch (plot.py lines 437-439),
parameterized by the grid densities the Gaussian KDE evaluates to: the
threshold is `zi.max() * kde_lower_bound` computed before any NaN exists,
then every strictly smaller density becomes NaN. -/
def kdeSuppress (zi : List ℚ) (kdeLowerBound : ℚ) : List (Option ℚ) :=
  let threshold := listMax zi * kdeLowerBound
  zi.map fun z => if z < threshold then none else some z

/-- The `vary_alpha` alpha channel of the `kde` branch (plot.py lines
427-451): suppress low densities, then normalize by the NaN-propagating
`zi.max()` and rescale, exactly as in the `hist` branch. -/
def kdeAlphas (zi : List ℚ) (kdeLowerBound minAlpha maxAlpha : ℚ) : List ℚ :=
  nanAlphas (kdeSuppress zi kdeLowerBound) minAlpha maxAlpha

/-- Work stages of `heatmap` in the order the code executes them: draw the
base map raster (plot.py line 335), run the level pre-filter (lines
337-353), project the surviving points (lines 356-357), and aggregate in
the chosen method branch (lines 383-453). -/
inductive HEvent where
  | drawBaseMap : HEvent
  | filterPoints : HEvent
  | projectPoints : HEvent
  | aggregate : HEvent
deriving DecidableEq, Repr

/-- The level pre-filter of `heatmap` (plot.py lines 337-353): keep, in
order, the points whose lower-level classification equals `is_lower`; a
non-empty warning string — hence a `warnings.warn` call — is produced
exactly when at least one point was dropped. Returns (kept points,
warned). -/
def filterHeatmapPoints (map_name : String) (isLowerView : Bool) :
    List (ℚ × ℚ × ℚ) → List (ℚ × ℚ × ℚ) × Bool
  | [] => ([], false)
  | p :: rest =>
    let r := filterHeatmapPoints map_name isLowerView rest
    if is_position_on_lower_level map_name p = isLowerView then (p :: r.1, r.2)
    else (r.1, true)

/-- The `vary_alpha_range` validation of `heatmap` (plot.py lines
362-381): a `None` range defaults to `[0, alpha]`; then the list must have
exactly 2 elements, both within `[0, 1]`, and be ordered, else
`ValueError`; on success the pair `(min_alpha, max_alpha)` results. -/
def checkVaryAlphaRange (baseAlpha : ℚ) (varyAlphaRange : Option (List ℚ)) :
    Except PErr (ℚ × ℚ) :=
  let r := match varyAlphaRange with
    | none => [0, baseAlpha]
    | some r => r
  match r with
  | [lo, hi] =>
    if ¬(0 ≤ lo ∧ lo ≤ 1) ∨ ¬(0 ≤ hi ∧ hi ≤ 1) then .error .validationError
    else if lo > hi then .error .validationError
    else .ok (lo, hi)
  | _ => .error .validationError

/-- The `heatmap` function of `awpy/plot/plot.py` as a trace of work
stages, the warning flag, and the optional raised error, in source order:
the base map is drawn (line 335), the points are filtered (lines 337-353)
and projected (lines 356-357); only then does the `vary_alpha_range`
validation run (lines 359-381), and the unknown-method `ValueError` is
raised last, in the `else` of the method dispatch (lines 454-456). -/
def heatmapRun (method : String) (map_name : String) (points : List (ℚ × ℚ × ℚ))
    (isLowerView varyAlpha : Bool) (baseAlpha : ℚ) (varyAlphaRange : Option (List ℚ)) :
    List HEvent × Bool × Option PErr :=
  let fr := filterHeatmapPoints map_name isLowerView points
  let ev : List HEvent := [.drawBaseMap, .filterPoints, .projectPoints]
  match (if varyAlpha then checkVaryAlphaRange baseAlpha varyAlphaRange else .ok (0, 1)) with
  | .error e => (ev, fr.2, some e)
  | .ok _ =>
    if method = "hex" ∨ method = "hist" ∨ method = "kde" then
      (ev ++ [.aggregate], fr.2, none)
    else (ev, fr.2, some .validationError)

/-- One entry of `frames_data` passed to `gif`: the dict with keys
`points` and `point_settings` read by `_generate_frame_plot`. -/
structure FrameData where
  points : List (ℚ × ℚ × ℚ)
  point_settings : List Ann
deriving DecidableEq, Repr

/-- One iteration of `_generate_frame_plot` (plot.py lines 239-251): call
`plot` on the frame data and take the rendered image (its trace of drawing
events); an exception in `plot` propagates. -/
def renderFrame (map_name : String) (fd : FrameData) (isLowerView : Bool) :
    Except PErr (List PEvent) :=
  match plotRun map_name (some fd.points) (some fd.point_settings) isLowerView with
  | (ev, none) => .ok ev
  | (_, some e) => .error e

/-- The frame loop of `_generate_frame_plot` (plot.py lines 238-253):
render each frame in input order, appending the images; the first raised
exception aborts the loop. -/
def generateFramePlot (map_name : String) (fds : List FrameData) (isLowerView : Bool) :
    Except PErr (List (List PEvent)) :=
  match fds with
  | [] => .ok []
  | fd :: rest =>
    match renderFrame map_name fd isLowerView with
    | .error e => .error e
    | .ok img =>
      match generateFramePlot map_name rest isLowerView with
      | .error e => .error e
      | .ok imgs => .ok (img :: imgs)

/-- The animated file `frames[0].save(..., save_all=True, append_images=
frames[1:], duration=duration, loop=0)` writes: all frames in order, each
displayed for `duration` milliseconds, with `loop = 0` meaning the GIF
loops indefinitely. -/
structure GifArtifact where
  frames : List (List PEvent)
  duration : ℤ
  loop : ℕ
deriving DecidableEq, Repr

/-- The `gif` function of `awpy/plot/plot.py` (lines 256-283): generate
the frame images, then save via `frames[0]` — which raises `IndexError`
when `frames_data` is empty — appending `frames[1:]`, with the given
per-frame duration and `loop=0`. -/
def gif (map_name : String) (fds : List FrameData) (output_filename : String)
    (duration : ℤ) (isLowerView : Bool) : Except PErr GifArtifact :=
  match generateFramePlot map_name fds isLowerView with
  | .error e => .error e
  | .ok frames =>
    match frames with
    | [] => .error .indexError
    | f :: rest => .ok ⟨f :: rest, duration, 0⟩


theorem renderPointBody_err (alpha : ℚ) (s : Ann) :
    (renderPointBody alpha s).2 = none ∨ (renderPointBody alpha s).2 = some .typeError := by
  unfold renderPointBody
  cases harm : s.armor <;> cases hdir : s.direction <;> cases hhp : s.hp <;>
    simp [directionEvents, hpTruthy, harm, hdir, hhp] <;> split_ifs <;> simp

theorem renderLoop_no_validation (m : String) (v : Bool)
    (l : List ((ℚ × ℚ × ℚ) × Ann)) :
    (renderLoop m v l).2 ≠ some PErr.validationError := by
  induction l with
  | nil => simp [renderLoop]
  | cons hd tl ih =>
    obtain ⟨p, s⟩ := hd
    unfold renderLoop
    rcases hrp : renderPoint m v p s with ⟨ev, err⟩
    cases err with
    | none => simpa using ih
    | some e =>
      have h2 : (renderPoint m v p s).2 =
          (renderPointBody (resolveAlpha s.hp (is_position_on_lower_level m p) v) s).2 := rfl
      rw [hrp] at h2
      rcases renderPointBody_err (resolveAlpha s.hp (is_position_on_lower_level m p) v) s with
        hb | hb <;> rw [← h2] at hb
      · simp at hb
      · simp at hb
        simp [hb]

/-- C6: the resolved drawing alpha of `plot` is the claimed baseline
(`0.15` iff `health == 0`, else `1`, including an absent health), dimmed by
`0.4` for a lower-level point on the upper view and zeroed for an
upper-level point on the lower view; and both concentric markers are the
first two drawing events of the point's render, both carrying exactly this
resolved alpha. -/
theorem marker_alpha_resolution (map_name : String) (isLowerView : Bool)
    (p : ℚ × ℚ × ℚ) (s : Ann) :
    (resolveAlpha s.hp (is_position_on_lower_level map_name p) isLowerView =
      (if is_position_on_lower_level map_name p && !isLowerView then
        (if s.hp = some 0 then (15/100 : ℚ) else 1) * (4/10)
      else if !(is_position_on_lower_level map_name p) && isLowerView then 0
      else (if s.hp = some 0 then (15/100 : ℚ) else 1))) ∧
    resolveAlpha (some 0) false false = 15/100 ∧
    resolveAlpha none false false = 1 ∧
    (renderPoint map_name isLowerView p s).1.take 2 =
      [.markerOutline (resolveAlpha s.hp (is_position_on_lower_level map_name p) isLowerView),
       .markerInner (resolveAlpha s.hp (is_position_on_lower_level map_name p) isLowerView)] := by
  refine ⟨?_, by norm_num [resolveAlpha], by simp [resolveAlpha], ?_⟩
  · cases hcl : is_position_on_lower_level map_name p <;> cases isLowerView <;>
      simp [resolveAlpha]
  · simp [renderPoint]

/-- C5 (code bug): a `point_settings` dict that supplies `direction` but no
`hp` makes `plot` evaluate `None > 0` (plot.py line 186) and raise
`TypeError` after the markers are drawn; one that supplies `hp > 0` but no
`armor` makes it evaluate `bar_length * None / 100` (plot.py line 176) and
raise `TypeError` after three bars are drawn — so validated inputs with
optional fields absent do not render cleanly, contradicting the claim. -/
theorem plot_optional_fields_type_error :
    renderPoint "de_dust2" false (0, 0, 0) { direction := some (0, 0) } =
      ([.markerOutline 1, .markerInner 1], some .typeError) ∧
    renderPoint "de_dust2" false (0, 0, 0) { hp := some 100 } =
      ([.markerOutline 1, .markerInner 1, .hpBarBg 1, .hpBarFg 1, .armorBarBg 1],
        some .typeError) := by
  constructor <;> rfl

/-- C8: when annotations are supplied and their count differs from the
point count, `plot` raises `ValueError` with only the base map drawn — no
marker, bar, direction segment or label event; when the counts match, or
annotations are omitted, no such `ValueError` is raised. -/
theorem plot_count_mismatch_guard (map_name : String) (ps : List (ℚ × ℚ × ℚ))
    (ss : List Ann) (isLowerView : Bool) :
    (ps.length ≠ ss.length →
      plotRun map_name (some ps) (some ss) isLowerView =
        ([.drawBaseMap], some .validationError)) ∧
    (ps.length = ss.length →
      (plotRun map_name (some ps) (some ss) isLowerView).2 ≠ some .validationError) ∧
    (plotRun map_name (some ps) none isLowerView).2 ≠ some .validationError := by
  refine ⟨?_, ?_, ?_⟩
  · intro hne
    simp [plotRun, hne]
  · intro heq
    simp [plotRun, heq]
    exact renderLoop_no_validation map_name isLowerView (ps.zip ss)
  · simp [plotRun]
    exact renderLoop_no_validation map_name isLowerView
      (ps.zip (List.replicate ps.length default))

/-- Witness: 3 points with 2 annotation dicts raise the count-mismatch
`ValueError` with only the base map drawn; 1 point with 1 dict does not. -/
theorem plot_count_mismatch_guard_witness :
    plotRun "de_dust2" (some [(0, 0, 0), (1, 1, 1), (2, 2, 2)]) (some [{}, {}]) false =
      ([.drawBaseMap], some .validationError) ∧
    (plotRun "de_dust2" (some [(0, 0, 0)]) (some [{}]) false).2 ≠ some .validationError :=
  ⟨(plot_count_mismatch_guard "de_dust2" [(0, 0, 0), (1, 1, 1), (2, 2, 2)] [{}, {}] false).1
      (by decide),
   (plot_count_mismatch_guard "de_dust2" [(0, 0, 0)] [{}] false).2.1 rfl⟩


/-- C1: for every registered map, the projection is `(v - origin.x)/scale`
on the x axis and the sign-inverted `(origin.y - v)/scale` on the y axis;
it is exactly linear (`project(v+δ) - project(v) = δ/scale` up to the axis
sign); and on `de_dust2` (origin `(-2476, 3239)`, scale `4.4`) the world
point `(-2476, 3239)` projects to pixel `(0, 0)` and `(-2476 + 4.4, 3239)`
to pixel `(1, 0)`. -/
theorem projection_affine_linear_dust2 (map_name : String) (md : MapData)
    (h : MAP_DATA map_name = some md) (v δ : ℚ) :
    position_transform_axis map_name v .x = some ((v - md.pos_x) / md.scale) ∧
    position_transform_axis map_name v .y = some (-((v - md.pos_y) / md.scale)) ∧
    (position_transform_axis map_name (v + δ) .x).getD 0 -
      (position_transform_axis map_name v .x).getD 0 = δ / md.scale ∧
    (position_transform_axis map_name (v + δ) .y).getD 0 -
      (position_transform_axis map_name v .y).getD 0 = -(δ / md.scale) ∧
    position_transform_axis "de_dust2" (-2476) .x = some 0 ∧
    position_transform_axis "de_dust2" 3239 .y = some 0 ∧
    position_transform_axis "de_dust2" (-2476 + 44/10) .x = some 1 := by
  refine ⟨?_, ?_, ?_, ?_, by norm_num [position_transform_axis, MAP_DATA],
    by norm_num [position_transform_axis, MAP_DATA],
    by norm_num [position_transform_axis, MAP_DATA]⟩
  · simp [position_transform_axis, h]
  · simp [position_transform_axis, h]
    ring
  · simp [position_transform_axis, h]
    rw [div_sub_div_same]
    congr 1
    ring
  · simp [position_transform_axis, h]
    rw [div_sub_div_same, ← neg_div]
    congr 1
    ring

/-- Witness for the projection theorem at `de_dust2`, `v = 3239`, `δ = 22`. -/
theorem projection_affine_linear_dust2_witness :
    position_transform_axis "de_dust2" 3239 .y = some 0 ∧
    (position_transform_axis "de_dust2" (3239 + 22) .y).getD 0 -
      (position_transform_axis "de_dust2" 3239 .y).getD 0 = -((22 : ℚ) / (44/10)) :=
  ⟨(projection_affine_linear_dust2 "de_dust2" ⟨-2476, 3239, 44/10, some 1, some (11/10), .negInf⟩
      rfl 3239 22).2.1.trans (by norm_num),
   (projection_affine_linear_dust2 "de_dust2" ⟨-2476, 3239, 44/10, some 1, some (11/10), .negInf⟩
      rfl 3239 22).2.2.2.1⟩

/-- C9: for every registered map, `is_position_on_lower_level` holds exactly
when the z coordinate is strictly below that map's finite cutoff; it is
false for every z when the cutoff is `-inf` (e.g. `ar_shoots`), and on
`de_vertigo` (cutoff `11700.0`) it holds exactly when `z < 11700`. -/
theorem lower_level_iff_z_below_threshold (map_name : String) (md : MapData)
    (h : MAP_DATA map_name = some md) (x y z : ℚ) :
    (is_position_on_lower_level map_name (x, y, z) = true ↔
      ∃ t, md.lower_level_max = .finite t ∧ z < t) ∧
    (md.lower_level_max = .negInf → is_position_on_lower_level map_name (x, y, z) = false) ∧
    is_position_on_lower_level "ar_shoots" (x, y, z) = false ∧
    (is_position_on_lower_level "de_vertigo" (x, y, z) = true ↔ z < 11700) := by
  refine ⟨?_, ?_, ?_, ?_⟩
  · simp only [is_position_on_lower_level, h, isLowerOfMap]
    cases hmd : md.lower_level_max with
    | negInf => simp
    | finite t =>
      simp only [decide_eq_true_eq]
      constructor
      · exact fun hz => ⟨t, rfl, hz⟩
      · rintro ⟨t', ht', hz⟩
        obtain rfl : t = t' := by injection ht'
        exact hz
  · intro hneg
    simp [is_position_on_lower_level, h, isLowerOfMap, hneg]
  · simp [is_position_on_lower_level, MAP_DATA, isLowerOfMap]
  · simp [is_position_on_lower_level, MAP_DATA, isLowerOfMap]

/-- Witness for the lower-level theorem at `de_nuke` (cutoff `-495`),
point `(0, 0, -600)`. -/
theorem lower_level_iff_z_below_threshold_witness :
    is_position_on_lower_level "de_nuke" (0, 0, -600) = true ∧
    is_position_on_lower_level "ar_shoots" (0, 0, -600) = false :=
  ⟨((lower_level_iff_z_below_threshold "de_nuke"
      ⟨-3453, 2887, 7, none, none, .finite (-495)⟩ rfl 0 0 (-600)).1).mpr
      ⟨-495, rfl, by norm_num⟩,
   (lower_level_iff_z_below_threshold "de_nuke"
      ⟨-3453, 2887, 7, none, none, .finite (-495)⟩ rfl 0 0 (-600)).2.2.1⟩

/-- C7: the heatmap pre-filter keeps exactly the points whose lower-level
classification equals the requested view level, in order; the warning is
emitted if and only if at least one point was dropped; and the heatmap
computation proceeds with the remainder — the run aggregates and raises no
error whatever points were dropped. -/
theorem heatmap_prefilter_keeps_matching_warns_iff_dropped (map_name : String)
    (isLowerView : Bool) (points : List (ℚ × ℚ × ℚ)) (baseAlpha : ℚ) :
    (filterHeatmapPoints map_name isLowerView points).1 =
      points.filter (fun p => is_position_on_lower_level map_name p == isLowerView) ∧
    ((filterHeatmapPoints map_name isLowerView points).2 = true ↔
      ∃ p ∈ points, is_position_on_lower_level map_name p ≠ isLowerView) ∧
    (heatmapRun "hex" map_name points isLowerView false baseAlpha none).2.2 = none ∧
    (heatmapRun "hex" map_name points isLowerView false baseAlpha none).1 =
      [.drawBaseMap, .filterPoints, .projectPoints, .aggregate] := by
  refine ⟨?_, ?_, by simp [heatmapRun], by simp [heatmapRun]⟩
  · induction points with
    | nil => simp [filterHeatmapPoints]
    | cons p rest ih =>
      by_cases h : is_position_on_lower_level map_name p = isLowerView <;>
        simp [filterHeatmapPoints, h, ih]
  · induction points with
    | nil => simp [filterHeatmapPoints]
    | cons p rest ih =>
      by_cases h : is_position_on_lower_level map_name p = isLowerView <;>
        simp [filterHeatmapPoints, h, ih]

theorem hex_map_form (counts : List ℚ) (baseAlpha minAlpha maxAlpha : ℚ) :
    hexCellStates counts true baseAlpha minAlpha maxAlpha =
      counts.map fun c =>
        (if c = 0 then none else some c,
         minAlpha + c / listMax counts * (maxAlpha - minAlpha)) := by
  simp only [hexCellStates]
  congr 1
  funext c
  simp only [if_true]
  exact Prod.ext rfl (by ring)

/-- C3: for the `hex` heatmap with `vary_alpha`, every cell's alpha is
`min_alpha + (count / max_count) * (max_alpha - min_alpha)`; the
maximum-count cell gets exactly `max_alpha`; a zero-count cell is turned
into NaN — fully transparent — regardless of `vary_alpha`; and without
`vary_alpha` every cell's alpha is the base `alpha` argument. -/
theorem hex_alpha_rescaling (counts : List ℚ) (baseAlpha minAlpha maxAlpha : ℚ)
    (hmax : 0 < listMax counts) :
    (∀ i : ℕ, (hexCellStates counts true baseAlpha minAlpha maxAlpha)[i]? =
      (counts[i]?).map fun c =>
        (if c = 0 then none else some c,
         minAlpha + c / listMax counts * (maxAlpha - minAlpha))) ∧
    (∀ (i : ℕ) (c : ℚ), counts[i]? = some c → c = listMax counts →
      ((hexCellStates counts true baseAlpha minAlpha maxAlpha)[i]?).map Prod.snd =
        some maxAlpha) ∧
    (∀ (va : Bool) (i : ℕ) (c : ℚ), counts[i]? = some c → c = 0 →
      ((hexCellStates counts va baseAlpha minAlpha maxAlpha)[i]?).map Prod.fst =
        some none) ∧
    (∀ (i : ℕ) (c : ℚ), counts[i]? = some c →
      ((hexCellStates counts false baseAlpha minAlpha maxAlpha)[i]?).map Prod.snd =
        some baseAlpha) := by
  refine ⟨?_, ?_, ?_, ?_⟩
  · intro i
    rw [hex_map_form, List.getElem?_map]
  · intro i c hc hcm
    rw [hex_map_form, List.getElem?_map, hc]
    simp only [Option.map_some']
    rw [hcm, div_self (ne_of_gt hmax)]
    congr 2
    ring
  · intro va i c hc hc0
    simp [hexCellStates, List.getElem?_map, hc, hc0]
  · intro i c hc
    simp [hexCellStates, List.getElem?_map, hc]

/-- Witness for the hex alpha theorem at counts `[0, 1, 3]` with
`vary_alpha_range = [0.2, 0.9]`: the maximum-count cell gets alpha `0.9`
and the zero-count cell is NaN. -/
theorem hex_alpha_rescaling_witness :
    ((hexCellStates [0, 1, 3] true (1/2) (1/5) (9/10))[2]?).map Prod.snd =
      some (9/10) ∧
    ((hexCellStates [0, 1, 3] true (1/2) (1/5) (9/10))[0]?).map Prod.fst =
      some none :=
  ⟨(hex_alpha_rescaling [0, 1, 3] (1/2) (1/5) (9/10)
      (by simp [listMax])).2.1 2 3 rfl (by simp [listMax]),
   (hex_alpha_rescaling [0, 1, 3] (1/2) (1/5) (9/10)
      (by simp [listMax])).2.2.1 true 0 0 rfl rfl⟩

theorem foldl_nmax_none (l : List (Option ℚ)) : l.foldl nmax none = none := by
  induction l with
  | nil => rfl
  | cons x xs ih => simpa [nmax] using ih

theorem foldl_nmax_mem_none (l : List (Option ℚ)) (acc : Option ℚ) (h : none ∈ l) :
    l.foldl nmax acc = none := by
  induction l generalizing acc with
  | nil => simp at h
  | cons x xs ih =>
    rcases List.mem_cons.mp h with hx | hx
    · subst hx
      have : nmax acc none = none := by cases acc <;> rfl
      simp [List.foldl_cons, this, foldl_nmax_none]
    · exact ih (nmax acc x) hx

theorem nanMax_of_mem_none (l : List (Option ℚ)) (h : none ∈ l) : nanMax l = none := by
  cases l with
  | nil => simp at h
  | cons x xs =>
    rcases List.mem_cons.mp h with hx | hx
    · subst hx
      exact foldl_nmax_none xs
    · exact foldl_nmax_mem_none xs x hx

theorem foldl_nmax_map_some (l : List ℚ) (a : ℚ) :
    (l.map some).foldl nmax (some a) = some (l.foldl max a) := by
  induction l generalizing a with
  | nil => rfl
  | cons x xs ih => simpa [nmax] using ih (max a x)

theorem nanMax_map_some (l : List ℚ) (h : l ≠ []) :
    nanMax (l.map some) = some (listMax l) := by
  cases l with
  | nil => exact absurd rfl h
  | cons x xs =>
    simpa [nanMax, listMax] using foldl_nmax_map_some xs x

theorem nanAlphas_all_some (l : List ℚ) (cells : List (Option ℚ))
    (hcells : cells = l.map some) (minAlpha maxAlpha : ℚ) (i : ℕ) (c : ℚ)
    (hc : l[i]? = some c) :
    (nanAlphas cells minAlpha maxAlpha)[i]? =
      some (minAlpha + c / listMax l * (maxAlpha - minAlpha)) := by
  have hne : l ≠ [] := by
    rintro rfl
    simp at hc
  subst hcells
  simp only [nanAlphas, List.getElem?_map, nanMax_map_some l hne, hc,
    Option.map_some', nanDiv]
  congr 1
  ring

theorem nanAlphas_none_mem (cells : List (Option ℚ)) (h : none ∈ cells)
    (minAlpha maxAlpha : ℚ) :
    ∀ a ∈ nanAlphas cells minAlpha maxAlpha, a = 0 := by
  intro a ha
  simp only [nanAlphas, nanMax_of_mem_none cells h, List.mem_map] at ha
  obtain ⟨x, _, hx⟩ := ha
  have : nanDiv x none = none := by cases x <;> rfl
  rw [this] at hx
  exact hx.symm

theorem nanAlphas_at_none (cells : List (Option ℚ)) (i : ℕ)
    (h : cells[i]? = some none) (minAlpha maxAlpha : ℚ) :
    (nanAlphas cells minAlpha maxAlpha)[i]? = some 0 := by
  have : nanDiv none (nanMax cells) = none := rfl
  simp [nanAlphas, List.getElem?_map, h, this]

/-- C2 (amended): for `hist` and `kde` with `vary_alpha`, the claimed
rescaling `min_alpha + (value/max) * (max_alpha - min_alpha)` holds for
every cell when no hist bin is empty, resp. no kde cell falls below
`kde_lower_bound * max_density`; but because zeros are replaced by NaN
before the normalization (plot.py lines 406 and 439) and `ndarray.max()`
propagates NaN (lines 410 and 443), the moment at least one bin is empty,
resp. one cell is suppressed, every cell's alpha collapses to `0`. Empty
bins and suppressed cells themselves always get alpha `0` (transparent). -/
theorem hist_kde_alpha_rescaling (counts zi : List ℚ) (minAlpha maxAlpha kdeLB : ℚ) :
    ((∀ c ∈ counts, c ≠ 0) →
      ∀ (i : ℕ) (c : ℚ), counts[i]? = some c →
        (histAlphas counts minAlpha maxAlpha)[i]? =
          some (minAlpha + c / listMax counts * (maxAlpha - minAlpha))) ∧
    ((∃ c ∈ counts, c = 0) →
      ∀ a ∈ histAlphas counts minAlpha maxAlpha, a = 0) ∧
    (∀ (i : ℕ) (c : ℚ), counts[i]? = some c → c = 0 →
      (histAlphas counts minAlpha maxAlpha)[i]? = some 0) ∧
    ((∀ z ∈ zi, ¬ z < listMax zi * kdeLB) →
      ∀ (i : ℕ) (z : ℚ), zi[i]? = some z →
        (kdeAlphas zi kdeLB minAlpha maxAlpha)[i]? =
          some (minAlpha + z / listMax zi * (maxAlpha - minAlpha))) ∧
    ((∃ z ∈ zi, z < listMax zi * kdeLB) →
      ∀ a ∈ kdeAlphas zi kdeLB minAlpha maxAlpha, a = 0) ∧
    (∀ (i : ℕ) (z : ℚ), zi[i]? = some z → z < listMax zi * kdeLB →
      (kdeAlphas zi kdeLB minAlpha maxAlpha)[i]? = some 0) := by
  refine ⟨?_, ?_, ?_, ?_, ?_, ?_⟩
  · intro hall i c hc
    have hcells : setZerosNaN counts = counts.map some := by
      unfold setZerosNaN
      exact List.map_congr_left fun c hcmem => if_neg (hall c hcmem)
    exact nanAlphas_all_some counts _ hcells minAlpha maxAlpha i c hc
  · rintro ⟨c, hcmem, rfl⟩
    refine nanAlphas_none_mem _ ?_ _ _
    simp only [setZerosNaN, List.mem_map]
    exact ⟨0, hcmem, by simp⟩
  · intro i c hc hc0
    refine nanAlphas_at_none _ i ?_ _ _
    simp [setZerosNaN, List.getElem?_map, hc, hc0]
  · intro hall i z hz
    have hcells : kdeSuppress zi kdeLB = zi.map some := by
      unfold kdeSuppress
      exact List.map_congr_left fun z hzmem => if_neg (hall z hzmem)
    exact nanAlphas_all_some zi _ hcells minAlpha maxAlpha i z hz
  · rintro ⟨z, hzmem, hzlt⟩
    refine nanAlphas_none_mem _ ?_ _ _
    simp only [kdeSuppress, List.mem_map]
    exact ⟨z, hzmem, by simp [hzlt]⟩
  · intro i z hz hzlt
    refine nanAlphas_at_none _ i ?_ _ _
    simp [kdeSuppress, List.getElem?_map, hz, hzlt]

/-- C2 (counterexample): with bin counts `[1, 2, 0]` — e.g. three points
of which two share a bin and one bin of the 2x2 grid stays empty — and
`vary_alpha_range = [0.2, 0.9]`, the claim assigns the maximum-count bin
(count 2) alpha `0.2 + (2/2)*(0.9-0.2) = 0.9`, but the code computes `0`
for it; likewise the kde grid `[1, 100]` with `kde_lower_bound = 0.5`
suppresses the cell of density 1 and the surviving maximum cell gets `0`
instead of `0.9`. -/
theorem hist_kde_alpha_nan_counterexample :
    (histAlphas [1, 2, 0] (1/5) (9/10))[1]? = some 0 ∧
    (1/5 + (2 : ℚ) / 2 * (9/10 - 1/5)) = 9/10 ∧
    ((0 : ℚ) ≠ 9/10) ∧
    (kdeAlphas [1, 100] (1/2) (1/5) (9/10))[1]? = some 0 := by
  have hhist : setZerosNaN [1, 2, 0] = [some 1, some 2, none] := by
    norm_num [setZerosNaN]
  have hmaxh : nanMax [some 1, some 2, none] = none := by
    simp [nanMax, nmax]
  have hthr : listMax [(1 : ℚ), 100] = 100 := by simp [listMax]
  have hkde : kdeSuppress [1, 100] (1/2) = [none, some 100] := by
    norm_num [kdeSuppress, hthr]
  have hmaxk : nanMax [none, some (100 : ℚ)] = none := by
    simp [nanMax, nmax]
  refine ⟨?_, by norm_num, by norm_num, ?_⟩
  · simp [histAlphas, hhist, nanAlphas, hmaxh, nanDiv]
  · unfold kdeAlphas
    rw [hkde]
    simp [nanAlphas, hmaxk, nanDiv]

/-- Witness for the amended hist/kde alpha theorem: with no empty bin
(`[1, 3]`) the maximum bin gets `0.9`; a suppressed kde cell gets `0`. -/
theorem hist_kde_alpha_rescaling_witness :
    (histAlphas [1, 3] (1/5) (9/10))[1]? =
      some (1/5 + 3 / listMax [1, 3] * (9/10 - 1/5)) ∧
    (kdeAlphas [1, 100] (1/2) (1/5) (9/10))[0]? = some 0 :=
  ⟨(hist_kde_alpha_rescaling [1, 3] [1, 100] (1/5) (9/10) (1/2)).1
      (by norm_num [List.forall_mem_cons]) 1 3 rfl,
   (hist_kde_alpha_rescaling [1, 3] [1, 100] (1/5) (9/10) (1/2)).2.2.2.2.2 0 1 rfl
      (by simp [listMax]; norm_num)⟩

theorem checkVaryAlphaRange_len_err (baseAlpha : ℚ) (r : List ℚ) (h : r.length ≠ 2) :
    checkVaryAlphaRange baseAlpha (some r) = .error .validationError := by
  rcases r with _ | ⟨a, _ | ⟨b, _ | ⟨c, tl⟩⟩⟩ <;> simp_all [checkVaryAlphaRange]

theorem checkVaryAlphaRange_bounds_err (baseAlpha lo hi : ℚ)
    (h : lo < 0 ∨ 1 < lo ∨ hi < 0 ∨ 1 < hi) :
    checkVaryAlphaRange baseAlpha (some [lo, hi]) = .error .validationError := by
  have hc : ¬(0 ≤ lo ∧ lo ≤ 1) ∨ ¬(0 ≤ hi ∧ hi ≤ 1) := by
    simp only [not_and_or, not_le]
    tauto
  simp [checkVaryAlphaRange, hc]
  intro h1 h2 h3 h4
  rcases hc with h5 | h5
  · exact (h5 ⟨h1, h2⟩).elim
  · exact (h5 ⟨h3, h4⟩).elim

theorem checkVaryAlphaRange_order_err (baseAlpha lo hi : ℚ) (h : lo > hi) :
    checkVaryAlphaRange baseAlpha (some [lo, hi]) = .error .validationError := by
  simp only [checkVaryAlphaRange]
  split_ifs <;> simp_all

/-- C4 (amended): `heatmap` does raise `ValueError` for an unknown method
and, when `vary_alpha` is set, for a `vary_alpha_range` that is not a
2-element list, has a value outside `[0, 1]`, or is out of order — and
always before any aggregation work; but the validations are not eager: the
base map raster is drawn, the points are filtered and projected before any
of them runs, and the method check happens only in the dispatch `else`. -/
theorem heatmap_validation_after_draw_filter_project (method map_name : String)
    (points : List (ℚ × ℚ × ℚ)) (isLowerView varyAlpha : Bool) (baseAlpha : ℚ)
    (varyAlphaRange : Option (List ℚ)) (r : List ℚ) (lo hi : ℚ) :
    (method ≠ "hex" → method ≠ "hist" → method ≠ "kde" →
      heatmapRun method map_name points isLowerView false baseAlpha none =
        ([.drawBaseMap, .filterPoints, .projectPoints],
          (filterHeatmapPoints map_name isLowerView points).2,
          some .validationError)) ∧
    (r.length ≠ 2 →
      heatmapRun method map_name points isLowerView true baseAlpha (some r) =
        ([.drawBaseMap, .filterPoints, .projectPoints],
          (filterHeatmapPoints map_name isLowerView points).2,
          some .validationError)) ∧
    (lo < 0 ∨ 1 < lo ∨ hi < 0 ∨ 1 < hi →
      heatmapRun method map_name points isLowerView true baseAlpha (some [lo, hi]) =
        ([.drawBaseMap, .filterPoints, .projectPoints],
          (filterHeatmapPoints map_name isLowerView points).2,
          some .validationError)) ∧
    (lo > hi →
      heatmapRun method map_name points isLowerView true baseAlpha (some [lo, hi]) =
        ([.drawBaseMap, .filterPoints, .projectPoints],
          (filterHeatmapPoints map_name isLowerView points).2,
          some .validationError)) ∧
    (∀ e, (heatmapRun method map_name points isLowerView varyAlpha baseAlpha
        varyAlphaRange).2.2 = some e →
      (heatmapRun method map_name points isLowerView varyAlpha baseAlpha
        varyAlphaRange).1 = [.drawBaseMap, .filterPoints, .projectPoints]) := by
  refine ⟨?_, ?_, ?_, ?_, ?_⟩
  · intro h1 h2 h3
    simp [heatmapRun, h1, h2, h3]
  · intro hlen
    simp [heatmapRun, checkVaryAlphaRange_len_err baseAlpha r hlen]
  · intro hbad
    simp [heatmapRun, checkVaryAlphaRange_bounds_err baseAlpha lo hi hbad]
  · intro hord
    simp [heatmapRun, checkVaryAlphaRange_order_err baseAlpha lo hi hord]
  · intro e he
    rcases hc : (if varyAlpha then checkVaryAlphaRange baseAlpha varyAlphaRange
        else .ok (0, 1)) with e' | pr
    · simp [heatmapRun, hc]
    · simp only [heatmapRun, hc] at he ⊢
      split_ifs with hm
      · simp [hm] at he
      · rfl

/-- Witness: an invalid method name, and an out-of-order range
`[0.9, 0.1]`, both produce `ValueError` only after the base map raster is
drawn and the single point is filtered and projected. -/
theorem heatmap_validation_after_draw_filter_project_witness :
    heatmapRun "invalid" "de_dust2" [(0, 0, 0)] false false 1 none =
      ([.drawBaseMap, .filterPoints, .projectPoints], false,
        some .validationError) ∧
    heatmapRun "hex" "de_dust2" [(0, 0, 0)] false true 1 (some [9/10, 1/10]) =
      ([.drawBaseMap, .filterPoints, .projectPoints], false,
        some .validationError) :=
  ⟨(heatmap_validation_after_draw_filter_project "invalid" "de_dust2" [(0, 0, 0)]
      false false 1 none [] 0 0).1 (by decide) (by decide) (by decide),
   (heatmap_validation_after_draw_filter_project "hex" "de_dust2" [(0, 0, 0)]
      false true 1 none [] (9/10) (1/10)).2.2.2.1 (by norm_num)⟩

/-- C4 (counterexample): calling `heatmap` with the unknown method
`"invalid"` raises `ValueError`, but only after the base map was drawn and
the point was filtered and projected — the trace preceding the raise is
not empty, refuting eagerness. -/
theorem heatmap_validation_not_eager_counterexample :
    heatmapRun "invalid" "de_dust2" [(0, 0, 0)] false false 1 none =
      ([.drawBaseMap, .filterPoints, .projectPoints], false,
        some .validationError) ∧
    HEvent.drawBaseMap ∈
      (heatmapRun "invalid" "de_dust2" [(0, 0, 0)] false false 1 none).1 := by
  constructor
  · rfl
  · have h : heatmapRun "invalid" "de_dust2" [(0, 0, 0)] false false 1 none =
        ([.drawBaseMap, .filterPoints, .projectPoints], false,
          some .validationError) := rfl
    rw [h]
    simp

theorem generateFramePlot_ok (map_name : String) (isLowerView : Bool)
    (fds : List FrameData) (l : List (List PEvent))
    (h : generateFramePlot map_name fds isLowerView = .ok l) :
    l.length = fds.length ∧
    ∀ (i : ℕ) (fd : FrameData), fds[i]? = some fd →
      ∃ img, l[i]? = some img ∧ renderFrame map_name fd isLowerView = .ok img := by
  induction fds generalizing l with
  | nil =>
    simp only [generateFramePlot] at h
    cases h
    simp
  | cons fd rest ih =>
    simp only [generateFramePlot] at h
    rcases hr : renderFrame map_name fd isLowerView with e | img <;> rw [hr] at h
    · exact absurd h (by simp)
    · rcases hg : generateFramePlot map_name rest isLowerView with e | imgs <;>
        rw [hg] at h
      · exact absurd h (by simp)
      · cases h
        obtain ⟨hlen, hidx⟩ := ih imgs hg
        refine ⟨by simp [hlen], ?_⟩
        intro i fd' hfd
        cases i with
        | zero =>
          simp only [List.getElem?_cons_zero, Option.some_inj] at hfd
          subst hfd
          exact ⟨img, by simp, hr⟩
        | succ n =>
          simp only [List.getElem?_cons_succ] at hfd ⊢
          exact hidx n fd' hfd

/-- C10 (amended): for a non-empty frame list that renders without an
exception, `gif` renders each frame by one `plot` call in input order and
saves an artifact holding exactly those frames in that order, with the
configured per-frame duration and `loop = 0` (loop forever). -/
theorem gif_frames_in_order (map_name : String) (fds : List FrameData)
    (out : String) (duration : ℤ) (isLowerView : Bool) (l : List (List PEvent))
    (hne : fds ≠ [])
    (hgen : generateFramePlot map_name fds isLowerView = .ok l) :
    gif map_name fds out duration isLowerView = .ok ⟨l, duration, 0⟩ ∧
    l.length = fds.length ∧
    ∀ (i : ℕ) (fd : FrameData), fds[i]? = some fd →
      ∃ img, l[i]? = some img ∧ renderFrame map_name fd isLowerView = .ok img := by
  obtain ⟨hlen, hidx⟩ := generateFramePlot_ok map_name isLowerView fds l hgen
  refine ⟨?_, hlen, hidx⟩
  cases l with
  | nil =>
    exact absurd (List.length_eq_zero.mp hlen.symm) hne
  | cons f rest =>
    simp [gif, hgen]

/-- Witness for the gif theorem: two frames with no points each render to
a bare base-map image; the artifact has both frames in order, duration
500 ms, loop forever. -/
theorem gif_frames_in_order_witness :
    gif "de_dust2" [⟨[], []⟩, ⟨[], []⟩] "out.gif" 500 false =
      .ok ⟨[[.drawBaseMap], [.drawBaseMap]], 500, 0⟩ :=
  (gif_frames_in_order "de_dust2" [⟨[], []⟩, ⟨[], []⟩] "out.gif" 500 false
    [[.drawBaseMap], [.drawBaseMap]] (by simp) rfl).1

/-- C10 (counterexample): an empty frame list does not produce an empty
animation — `frames[0]` raises `IndexError` (plot.py line 277). -/
theorem gif_empty_frames_counterexample :
    gif "de_dust2" [] "out.gif" 500 false = .error .indexError := rfl
